import Mathlib

/-!
Verification of the multi-source financial-statement fetcher in `src/app.py`
(functions `get_ticker` and `fetch_financials`).

The embedding is shallow: pandas DataFrames become lists of records, JSON
objects become Lean structures, and every Python exception site is modelled
as an `Except.error` value which the surrounding `try/except` (the `pytry`
combinator below) absorbs.  The network-visible behaviour of a provider (HTTP
status, parsed body, SDK results) is part of the input environment `Env`,
so one total Lean function captures the fetcher on every combination of
credentials and provider responses.

Numeric JSON values are modelled as rationals; a field of type
`Option (Option ℚ)` distinguishes an absent JSON key (outer `none`) from a
JSON null / NaN cell (inner `none`), which is what pandas column selection
and `NaN` propagation distinguish.
-/

/-- A calendar date as consumed by `pd.to_datetime(...)`; only the year
component is ever extracted by the code. -/
structure PDate where
  year : Int
  month : Nat
  day : Nat
deriving DecidableEq

/-- One normalized row of the canonical result table with columns
Year, Revenue, Operating Income, Net Income, EPS.  Every column can hold a
NaN (modelled `none`): Year becomes NaN when the date key of a row was absent. -/
structure FinancialRecord where
  Year : Option Int
  Revenue : Option ℚ
  OperatingIncome : Option ℚ
  NetIncome : Option ℚ
  EPS : Option ℚ
deriving DecidableEq

/-- Network requests that `fetch_financials` can issue, one per provider. -/
inductive PCall where
  | fmp
  | sahmk
  | edgar
  | polygon
  | yfinance
deriving DecidableEq

/-- One element of the FMP JSON array.  Outer `Option` is key presence,
inner `Option` is a null value. -/
structure FmpRow where
  date : Option (Option PDate)
  revenue : Option (Option ℚ)
  operatingIncome : Option (Option ℚ)
  netIncome : Option (Option ℚ)
  eps : Option (Option ℚ)
deriving DecidableEq

/-- One element of the SAHMK `income_statements` JSON array. -/
structure SahmkRow where
  report_date : Option (Option PDate)
  total_revenue : Option (Option ℚ)
  operating_income : Option (Option ℚ)
  net_income : Option (Option ℚ)
  eps : Option (Option ℚ)
deriving DecidableEq

/-- One row of the EDGAR income statement after `reset_index`; the fields
are the column names the code inspects (`EPS` models a pre-existing EPS
column, `earningspersharebasic` the basic-EPS spelling it renames). -/
structure EdgarRow where
  date : Option (Option PDate)
  revenue : Option (Option ℚ)
  operating_income : Option (Option ℚ)
  net_income : Option (Option ℚ)
  EPS : Option (Option ℚ)
  earningspersharebasic : Option (Option ℚ)
deriving DecidableEq

/-- One Polygon filing: the dict built in the loop always has all five keys,
so a single `Option` (value or None) suffices per field. -/
structure PolyRow where
  fiscal_year : Option Int
  revenues : Option ℚ
  operating_income_loss : Option ℚ
  net_income_loss : Option ℚ
  basic_earnings_per_share : Option ℚ
deriving DecidableEq

/-- One row of `yf.Ticker(t).income_stmt.T`: the index entry is the fiscal
period end date; a `none` field models an absent line item / NaN cell. -/
structure YfRow where
  idx : PDate
  totalRevenue : Option ℚ
  operatingIncome : Option ℚ
  netIncome : Option ℚ
  dilutedEPS : Option ℚ
deriving DecidableEq

/-- An HTTP response as seen through `requests`: a status code and the
outcome of `resp.json()` (`.error` models a malformed payload). -/
structure HttpResp (ρ : Type) where
  status : Nat
  body : Except Unit (List ρ)

/-- The full input of one `fetch_financials` call: its five arguments plus
the behaviour of every external provider.  `Except.error` in a response
field models the corresponding network call raising (connection error,
timeout); `edgarAvailable` models the optional edgar/edgartools imports. -/
structure Env where
  ticker : String
  fmp_key : String
  sah_mk_key : String
  polygon_key : String
  edgar_email : String
  edgarAvailable : Bool
  fmpResp : Except Unit (HttpResp FmpRow)
  sahmkResp : Except Unit (HttpResp SahmkRow)
  edgarResp : Except Unit (List EdgarRow)
  polygonResp : Except Unit (List PolyRow)
  yfResp : Except Unit (List YfRow)

/-- A pandas DataFrame built from a list of JSON objects has a column iff
some object carries the key. -/
def colPresent {ρ α : Type} (rows : List ρ) (f : ρ → Option (Option α)) : Bool :=
  rows.any fun r => (f r).isSome

/-- The cell value of a row under a column: absent key and null both read
back as NaN (`none`). -/
def cell {ρ α : Type} (f : ρ → Option (Option α)) (r : ρ) : Option α :=
  (f r).bind id

/-- The key order of `sort_values` on the Year column: NaN years sort
last (the pandas default of placing missing keys at the end). -/
def yearLE : Option Int → Option Int → Bool
  | some a, some b => decide (a ≤ b)
  | none, some _ => false
  | _, none => true

/-- Row order used by `sort_values` on the Year column. -/
def recLe (a b : FinancialRecord) : Prop := yearLE a.Year b.Year = true

instance : DecidableRel recLe := fun a b =>
  inferInstanceAs (Decidable (yearLE a.Year b.Year = true))

instance : IsTotal FinancialRecord recLe := by
  refine ⟨fun a b => ?_⟩
  obtain ⟨ay, _, _, _, _⟩ := a
  obtain ⟨by', _, _, _, _⟩ := b
  simp only [recLe]
  rcases ay with _ | x <;> rcases by' with _ | y <;> simp [yearLE]
  omega

instance : IsTrans FinancialRecord recLe := by
  refine ⟨fun a b c hab hbc => ?_⟩
  obtain ⟨ay, _, _, _, _⟩ := a
  obtain ⟨by', _, _, _, _⟩ := b
  obtain ⟨cy, _, _, _, _⟩ := c
  simp only [recLe] at hab hbc ⊢
  rcases ay with _ | x <;> rcases by' with _ | y <;> rcases cy with _ | z <;>
    simp_all [yearLE]
  omega

/-- Model of `sort_values` on the Year column: sort the rows by the
Year key, NaN last. -/
def sortValues (l : List FinancialRecord) : List FinancialRecord :=
  List.insertionSort recLe l

/-- Model of the try/except-pass wrapper around a provider block: an
exception is absorbed and the provider yields nothing. -/
def pytry (x : Except Unit (Option (List FinancialRecord))) :
    Option (List FinancialRecord) :=
  match x with
  | .ok v => v
  | .error _ => none

/-- Normalization of one FMP JSON object:
`Year = to_datetime(date).year` and the rename
revenue/operatingIncome/netIncome/eps to the canonical names. -/
def fmpRecord (r : FmpRow) : FinancialRecord :=
  { Year := (cell FmpRow.date r).map PDate.year
    Revenue := cell FmpRow.revenue r
    OperatingIncome := cell FmpRow.operatingIncome r
    NetIncome := cell FmpRow.netIncome r
    EPS := cell FmpRow.eps r }

/-- The column selection
of the five columns date, revenue, operatingIncome, netIncome and eps
from the built frame succeeds iff all five exist; otherwise it raises
a `KeyError`. -/
def fmpCols (data : List FmpRow) : Bool :=
  colPresent data FmpRow.date && colPresent data FmpRow.revenue &&
    colPresent data FmpRow.operatingIncome &&
    colPresent data FmpRow.netIncome && colPresent data FmpRow.eps

/-- The body of the FMP `try` block (priority 1).  `.error` is a raised
exception, `.ok none` means the block falls through without returning. -/
def fmpTry (env : Env) : Except Unit (Option (List FinancialRecord)) :=
  match env.fmpResp with
  | .error _ => .error ()
  | .ok resp =>
    if resp.status = 200 then
      match resp.body with
      | .error _ => .error ()
      | .ok data =>
        if data.isEmpty then .ok none
        else if fmpCols data then
          .ok (some (sortValues (data.map fmpRecord)))
        else .error ()
    else .ok none

/-- Normalization of one SAHMK income-statement object; `hasEps` says
whether the response carried an `eps` column, otherwise the code fills
`EPS = Net Income / 1_000_000_000`. -/
def sahmkRecord (hasEps : Bool) (r : SahmkRow) : FinancialRecord :=
  { Year := (cell SahmkRow.report_date r).map PDate.year
    Revenue := cell SahmkRow.total_revenue r
    OperatingIncome := cell SahmkRow.operating_income r
    NetIncome := cell SahmkRow.net_income r
    EPS :=
      if hasEps then cell SahmkRow.eps r
      else (cell SahmkRow.net_income r).map (fun x => x / 1000000000) }

/-- The body of the SAHMK `try` block (priority 2); the caller checks the
key and the `.SR` suffix first.  Reading the report_date column raises
when it is absent (hence also when the list is empty), reading the Net
Income column raises in the EPS fallback when no row carried
`net_income`, and the final
column selection raises when any canonical column is absent. -/
def sahmkTry (env : Env) : Except Unit (Option (List FinancialRecord)) :=
  match env.sahmkResp with
  | .error _ => .error ()
  | .ok resp =>
    if resp.status = 200 then
      match resp.body with
      | .error _ => .error ()
      | .ok inc =>
        if colPresent inc SahmkRow.report_date then
          if !colPresent inc SahmkRow.eps &&
              !colPresent inc SahmkRow.net_income then .error ()
          else if colPresent inc SahmkRow.total_revenue &&
              colPresent inc SahmkRow.operating_income &&
              colPresent inc SahmkRow.net_income then
            .ok (some (sortValues
              (inc.map (sahmkRecord (colPresent inc SahmkRow.eps)))))
          else .error ()
        else .error ()
    else .ok none

/-- The EPS cell of an EDGAR row: a pre-existing `EPS` column wins, else
`earningspersharebasic` is renamed to `EPS`, else the column is absent and
the selected frame simply has no EPS column (NaN here). -/
def edgarEpsCell (inc : List EdgarRow) (r : EdgarRow) : Option ℚ :=
  if colPresent inc EdgarRow.EPS then cell EdgarRow.EPS r
  else if colPresent inc EdgarRow.earningspersharebasic then
    cell EdgarRow.earningspersharebasic r
  else none

/-- Normalization of one EDGAR income-statement row. -/
def edgarRecord (inc : List EdgarRow) (r : EdgarRow) : FinancialRecord :=
  { Year := (cell EdgarRow.date r).map PDate.year
    Revenue := cell EdgarRow.revenue r
    OperatingIncome := cell EdgarRow.operating_income r
    NetIncome := cell EdgarRow.net_income r
    EPS := edgarEpsCell inc r }

/-- The body of the EDGAR `try` block (priority 3); the caller checks
availability, the ticker suffix and the email first.  An empty statement
falls through; a missing `date` or canonical column raises `KeyError`. -/
def edgarTry (env : Env) : Except Unit (Option (List FinancialRecord)) :=
  match env.edgarResp with
  | .error _ => .error ()
  | .ok inc =>
    if inc.isEmpty then .ok none
    else if colPresent inc EdgarRow.date then
      if colPresent inc EdgarRow.revenue &&
          colPresent inc EdgarRow.operating_income &&
          colPresent inc EdgarRow.net_income then
        .ok (some (sortValues (inc.map (edgarRecord inc))))
      else .error ()
    else .error ()

/-- The dict built for one Polygon filing. -/
def polyRecord (f : PolyRow) : FinancialRecord :=
  { Year := f.fiscal_year
    Revenue := f.revenues
    OperatingIncome := f.operating_income_loss
    NetIncome := f.net_income_loss
    EPS := f.basic_earnings_per_share }

/-- Model of dropna with how set to all: a row is dropped iff every
cell, the Year included, is NaN. -/
def allNullRow (r : FinancialRecord) : Bool :=
  r.Year.isNone && r.Revenue.isNone && r.OperatingIncome.isNone &&
    r.NetIncome.isNone && r.EPS.isNone

/-- The body of the Polygon `try` block (priority 4): build the frame,
drop the fully-null rows, and return the frame only when non-empty. -/
def polygonTry (env : Env) : Except Unit (Option (List FinancialRecord)) :=
  match env.polygonResp with
  | .error _ => .error ()
  | .ok fs =>
    if ((fs.map polyRecord).filter (fun r => !allNullRow r)).isEmpty then
      .ok none
    else
      .ok (some (sortValues
        ((fs.map polyRecord).filter (fun r => !allNullRow r))))

/-- One yfinance row mapped into the canonical frame; the Year always comes
from the date index, so it is never NaN. -/
def yfRecord (r : YfRow) : FinancialRecord :=
  { Year := some r.idx.year
    Revenue := r.totalRevenue
    OperatingIncome := r.operatingIncome
    NetIncome := r.netIncome
    EPS := r.dilutedEPS }

/-- The body of the yfinance fallback `try` block: an empty income
statement falls through to the final `return pd.DataFrame()`. -/
def yfTry (env : Env) : Except Unit (Option (List FinancialRecord)) :=
  match env.yfResp with
  | .error _ => .error ()
  | .ok income =>
    if income.isEmpty then .ok none
    else .ok (some (sortValues
      ((income.map yfRecord).filter (fun r => !allNullRow r))))

/-- Model of the Python string upper method (ASCII model). -/
def pyUpper (s : String) : String := String.mk (s.data.map Char.toUpper)

/-- Model of the Python string endswith method. -/
def pyEndsWith (s suf : String) : Bool := List.isSuffixOf suf.data s.data

/-- Gate of the SAHMK branch: a SAHMK key is present and the ticker
ends with the Saudi-market suffix .SR. -/
def sahmkGate (env : Env) : Bool :=
  !env.sah_mk_key.isEmpty && pyEndsWith env.ticker ".SR"

/-- Gate of the EDGAR branch: the edgar imports are available, the
ticker does not end in .SR, and the email contains an at-sign. -/
def edgarGate (env : Env) : Bool :=
  env.edgarAvailable && !(pyEndsWith env.ticker ".SR") &&
    env.edgar_email.data.contains '@'

/-- Priority-1 outcome: skipped without a key, exceptions absorbed. -/
def fmpAttempt (env : Env) : Option (List FinancialRecord) :=
  if env.fmp_key.isEmpty then none else pytry (fmpTry env)

/-- Priority-2 outcome. -/
def sahmkAttempt (env : Env) : Option (List FinancialRecord) :=
  if sahmkGate env then pytry (sahmkTry env) else none

/-- Priority-3 outcome: a failure only prints a warning and falls through,
so for the returned data it behaves like `pass`. -/
def edgarAttempt (env : Env) : Option (List FinancialRecord) :=
  if edgarGate env then pytry (edgarTry env) else none

/-- Priority-4 outcome. -/
def polygonAttempt (env : Env) : Option (List FinancialRecord) :=
  if env.polygon_key.isEmpty then none else pytry (polygonTry env)

/-- Fallback outcome; always attempted when reached. -/
def yfAttempt (env : Env) : Option (List FinancialRecord) :=
  pytry (yfTry env)

/-- The provider outcomes in the fixed priority order
FMP, SAHMK, EDGAR, Polygon, yfinance; `none` is skipped, raised or
fell-through-empty. -/
def attempts (env : Env) : List (Option (List FinancialRecord)) :=
  [fmpAttempt env, sahmkAttempt env, edgarAttempt env, polygonAttempt env,
    yfAttempt env]

/-- Network requests issued while evaluating the FMP branch. -/
def fmpCalls (env : Env) : List PCall :=
  if env.fmp_key.isEmpty then [] else [PCall.fmp]

/-- Network requests issued while evaluating the SAHMK branch. -/
def sahmkCalls (env : Env) : List PCall :=
  if sahmkGate env then [PCall.sahmk] else []

/-- Requests issued while evaluating the EDGAR branch. -/
def edgarCalls (env : Env) : List PCall :=
  if edgarGate env then [PCall.edgar] else []

/-- Requests issued while evaluating the Polygon branch. -/
def polygonCalls (env : Env) : List PCall :=
  if env.polygon_key.isEmpty then [] else [PCall.polygon]

/-- `fetch_financials` with its request trace: the first provider whose
block returns wins outright; when nothing returns, the final
`return pd.DataFrame()` yields the empty frame. -/
def fetchPair (env : Env) : List FinancialRecord × List PCall :=
  match fmpAttempt env with
  | some df => (df, fmpCalls env)
  | none =>
    match sahmkAttempt env with
    | some df => (df, fmpCalls env ++ sahmkCalls env)
    | none =>
      match edgarAttempt env with
      | some df => (df, fmpCalls env ++ sahmkCalls env ++ edgarCalls env)
      | none =>
        match polygonAttempt env with
        | some df =>
          (df, fmpCalls env ++ sahmkCalls env ++ edgarCalls env ++
            polygonCalls env)
        | none =>
          match yfAttempt env with
          | some df =>
            (df, fmpCalls env ++ sahmkCalls env ++ edgarCalls env ++
              polygonCalls env ++ [PCall.yfinance])
          | none =>
            ([], fmpCalls env ++ sahmkCalls env ++ edgarCalls env ++
              polygonCalls env ++ [PCall.yfinance])

/-- The value `fetch_financials(ticker, fmp_key, sah_mk_key, polygon_key,
edgar_email)` returns to its caller. -/
def fetch_financials (env : Env) : List FinancialRecord :=
  (fetchPair env).1

/-- The network requests one `fetch_financials` evaluation issues. -/
def fetchTrace (env : Env) : List PCall :=
  (fetchPair env).2

/-- Model of the Python substring containment test on character lists. -/
def listContainsSub : List Char → List Char → Bool
  | [], pat => pat.isEmpty
  | c :: cs, pat => pat.isPrefixOf (c :: cs) || listContainsSub cs pat

/-- Model of the Python substring containment test for strings. -/
def pyContains (s sub : String) : Bool := listContainsSub s.data sub.data

/-- Model of the Python string isupper method: at least one cased
character and no lowercase one (ASCII model, where the cased characters
are the letters). -/
def pyIsUpper (s : String) : Bool :=
  s.data.any Char.isAlpha && s.data.all (fun c => !c.isLower)

/-- Model of the Python string isdigit method (ASCII model). -/
def pyIsDigit (s : String) : Bool :=
  !s.data.isEmpty && s.data.all Char.isDigit

/-- Model of replacing every dot in the query with nothing. -/
def stripDots (s : String) : String :=
  String.mk (s.data.filter (fun c => c != '.'))

/-- The guard of `get_ticker`: the query already looks like a ticker. -/
def looksLikeTicker (q : String) : Bool :=
  (pyContains (pyUpper q) ".SR" || pyContains (pyUpper q) ".T" ||
      pyContains (pyUpper q) ".L") ||
    pyIsUpper q || pyIsDigit (stripDots q)

/-- One entry of the Yahoo search `quotes` array; `symbol := none` models
an object without a `symbol` key (its access raises `KeyError`). -/
structure Quote where
  symbol : Option String
deriving DecidableEq

/-- Input of one `get_ticker` call: the query plus the behaviour of the
Yahoo symbol-search endpoint.  `.error` models `yf.utils.get_json`
raising; an absent or empty `quotes` array is the empty list. -/
structure TickEnv where
  query : String
  searchResp : Except Unit (List Quote)

/-- Model of get_ticker: return the uppercased query when it already looks
like a ticker; otherwise try one symbol search, falling back to the
uppercased query on any failure or empty answer. -/
def get_ticker (env : TickEnv) : String :=
  if looksLikeTicker env.query then pyUpper env.query
  else
    match env.searchResp with
    | .error _ => pyUpper env.query
    | .ok quotes =>
      match quotes with
      | [] => pyUpper env.query
      | q :: _ =>
        match q.symbol with
        | some s => s
        | none => pyUpper env.query

/-- The memoization key of `fetch_financials`: its five arguments. -/
def cacheKey (env : Env) : String × String × String × String × String :=
  (env.ticker, env.fmp_key, env.sah_mk_key, env.polygon_key,
    env.edgar_email)

/-- Modelled from the spec: the freshness window of the
`@st.cache_data(ttl=3600 * 2)` decorator, in seconds. -/
def cacheTTL : Int := 3600 * 2

/-- Modelled from the spec: one entry of the framework's result cache,
`key → (value, timestamp)`. -/
structure CacheEntry where
  key : String × String × String × String × String
  value : List FinancialRecord
  time : Int

/-- Modelled from the spec: a cache probe returns a stored result whose
age at time `t` is within the freshness window. -/
def cacheLookup (s : List CacheEntry) (k : String × String × String ×
    String × String) (t : Int) : Option (List FinancialRecord) :=
  (s.find? (fun e => decide (e.key = k) && decide (t - e.time < cacheTTL))).map
    CacheEntry.value

/-- Modelled from the spec: `st.cache_data` is framework code, not part of
this repository; the spec describes it as returning the previously
computed result for an identical (ticker, credential set) within the
freshness window without re-querying any provider, and computing and
storing the result otherwise.  The returned trace is the list of network
requests the call itself issues. -/
def cachedFetch (env : Env) (t : Int) (s : List CacheEntry) :
    (List FinancialRecord × List PCall) × List CacheEntry :=
  match cacheLookup s (cacheKey env) t with
  | some v => ((v, []), s)
  | none => (fetchPair env, ⟨cacheKey env, (fetchPair env).1, t⟩ :: s)

/-- A call with no credentials at all, an unavailable EDGAR integration
and an empty yfinance income statement. -/
def env0 : Env :=
  { ticker := "AAPL", fmp_key := "", sah_mk_key := "", polygon_key := ""
    edgar_email := "anonymous@example.com", edgarAvailable := false
    fmpResp := .error (), sahmkResp := .error (), edgarResp := .error ()
    polygonResp := .error (), yfResp := .ok [] }

/-- Only the Polygon key is configured and Polygon answers one filing. -/
def envC2 : Env :=
  { ticker := "AAPL", fmp_key := "", sah_mk_key := "", polygon_key := "pk"
    edgar_email := "a@b.com", edgarAvailable := false
    fmpResp := .error (), sahmkResp := .error (), edgarResp := .error ()
    polygonResp := .ok [⟨some 2022, some 10, some 2, some 1, some 1⟩]
    yfResp := .ok [] }

/-- FMP answers two annual statements dated in the same calendar year. -/
def envC3 : Env :=
  { ticker := "AAPL", fmp_key := "k", sah_mk_key := "", polygon_key := ""
    edgar_email := "a@b.com", edgarAvailable := false
    fmpResp := .ok ⟨200, .ok
      [⟨some (some ⟨2020, 1, 15⟩), some (some 50), some (some 10),
        some (some 5), some (some 1)⟩,
       ⟨some (some ⟨2020, 12, 31⟩), some (some 60), some (some 12),
        some (some 6), some (some 2)⟩]⟩
    sahmkResp := .error (), edgarResp := .error ()
    polygonResp := .error (), yfResp := .ok [] }

/-- An FMP answer with one complete row and one row whose financial
fields are all JSON null. -/
def rowsC4 : List FmpRow :=
  [⟨some (some ⟨2019, 12, 31⟩), some (some 100), some (some 20),
    some (some 15), some (some 2)⟩,
   ⟨some (some ⟨2020, 12, 31⟩), some none, some none, some none,
    some none⟩]

/-- FMP answers one complete row and one row whose financial fields are
all JSON null. -/
def envC4 : Env :=
  { ticker := "AAPL", fmp_key := "k", sah_mk_key := "", polygon_key := ""
    edgar_email := "a@b.com", edgarAvailable := false
    fmpResp := .ok ⟨200, .ok rowsC4⟩
    sahmkResp := .error (), edgarResp := .error ()
    polygonResp := .error (), yfResp := .ok [] }

/-- A Polygon answer with one fully-absent filing and one filing whose
fields are present apart from the EPS. -/
def rowsC4p : List PolyRow :=
  [⟨none, none, none, none, none⟩,
   ⟨some 2022, some 10, some 2, some 1, none⟩]

/-- Polygon answers one filing with every field absent and one normal
filing, next to an FMP answer used by the amended-C4 witness. -/
def envC4p : Env :=
  { ticker := "AAPL", fmp_key := "", sah_mk_key := "", polygon_key := "pk"
    edgar_email := "a@b.com", edgarAvailable := false
    fmpResp := .error (), sahmkResp := .error (), edgarResp := .error ()
    polygonResp := .ok rowsC4p
    yfResp := .ok [] }

/-- A SAHMK answer carrying an `eps` column, with one complete row and
one row whose financial fields are all JSON null. -/
def rowsC4s : List SahmkRow :=
  [⟨some (some ⟨2021, 12, 31⟩), some (some 1), some (some 2),
    some (some 3), some (some 4)⟩,
   ⟨some (some ⟨2022, 12, 31⟩), some none, some none, some none,
    some none⟩]

/-- A Saudi ticker whose SAHMK answer is `rowsC4s`. -/
def envC4s : Env :=
  { ticker := "1120.SR", fmp_key := "", sah_mk_key := "sk"
    polygon_key := "", edgar_email := "a@b.com", edgarAvailable := false
    fmpResp := .error ()
    sahmkResp := .ok ⟨200, .ok rowsC4s⟩
    edgarResp := .error (), polygonResp := .error (), yfResp := .ok [] }

/-- A yfinance income statement with one row whose line items are all
absent (its Year still comes from the date index) and one normal row. -/
def rowsC4y : List YfRow :=
  [⟨⟨2020, 12, 31⟩, none, none, none, none⟩,
   ⟨⟨2021, 12, 31⟩, some 5, some 6, some 7, some 8⟩]

/-- No credentials at all; only the yfinance fallback answers, with
`rowsC4y`. -/
def envC4y : Env :=
  { ticker := "AAPL", fmp_key := "", sah_mk_key := "", polygon_key := ""
    edgar_email := "a@b.com", edgarAvailable := false
    fmpResp := .error (), sahmkResp := .error (), edgarResp := .error ()
    polygonResp := .error (), yfResp := .ok rowsC4y }

/-- A Saudi ticker with a SAHMK key; SAHMK answers one income statement
with no `eps` field and a net income of 3 billion. -/
def envC6 : Env :=
  { ticker := "1120.SR", fmp_key := "", sah_mk_key := "sk"
    polygon_key := "", edgar_email := "a@b.com", edgarAvailable := false
    fmpResp := .error ()
    sahmkResp := .ok ⟨200, .ok
      [⟨some (some ⟨2023, 12, 31⟩), some (some 5000000000),
        some (some 4000000000), some (some 3000000000), none⟩]⟩
    edgarResp := .error (), polygonResp := .error (), yfResp := .ok [] }

/-- FMP answers one complete row and one row that merely lacks the `eps`
key; yfinance would have data, so any fall-through would be visible. -/
def envC10 : Env :=
  { ticker := "AAPL", fmp_key := "k", sah_mk_key := "", polygon_key := ""
    edgar_email := "a@b.com", edgarAvailable := false
    fmpResp := .ok ⟨200, .ok
      [⟨some (some ⟨2019, 12, 31⟩), some (some 100), some (some 20),
        some (some 15), some (some 2)⟩,
       ⟨some (some ⟨2020, 12, 31⟩), some (some 7), some (some 8),
        some (some 9), none⟩]⟩
    sahmkResp := .error (), edgarResp := .error ()
    polygonResp := .error ()
    yfResp := .ok [⟨⟨2001, 1, 1⟩, some 1, some 1, some 1, some 1⟩] }

/-- An FMP answer in which the `eps` key is absent from every row, so the
whole `eps` column is missing from the built frame. -/
def rowsC10b : List FmpRow :=
  [⟨some (some ⟨2019, 12, 31⟩), some (some 100), some (some 20),
    some (some 15), none⟩,
   ⟨some (some ⟨2020, 12, 31⟩), some (some 7), some (some 8),
    some (some 9), none⟩]

/-- FMP answers rows in which the `eps` key is absent from every row, so
the whole `eps` column is missing. -/
def envC10b : Env :=
  { ticker := "AAPL", fmp_key := "k", sah_mk_key := "", polygon_key := ""
    edgar_email := "a@b.com", edgarAvailable := false
    fmpResp := .ok ⟨200, .ok rowsC10b⟩
    sahmkResp := .error (), edgarResp := .error ()
    polygonResp := .error (), yfResp := .ok [] }

/-- A free-text query whose symbol search raises. -/
def tickEnvW : TickEnv := { query := "apple inc", searchResp := .error () }

lemma sorted_sortValues (m : List FinancialRecord) :
    List.Sorted recLe (sortValues m) :=
  List.sorted_insertionSort recLe m

lemma pytry_eq_some {x : Except Unit (Option (List FinancialRecord))}
    {l : List FinancialRecord} (h : pytry x = some l) :
    x = .ok (some l) := by
  cases x with
  | ok v => simp only [pytry] at h; rw [h]
  | error e => simp [pytry] at h

lemma fmpTry_ok_some {env : Env} {l : List FinancialRecord}
    (h : fmpTry env = .ok (some l)) : ∃ m, l = sortValues m := by
  unfold fmpTry at h
  repeat' split at h
  all_goals simp_all
  exact ⟨_, h.symm⟩

lemma sahmkTry_ok_some {env : Env} {l : List FinancialRecord}
    (h : sahmkTry env = .ok (some l)) : ∃ m, l = sortValues m := by
  unfold sahmkTry at h
  repeat' split at h
  all_goals simp_all
  exact ⟨_, h.symm⟩

lemma edgarTry_ok_some {env : Env} {l : List FinancialRecord}
    (h : edgarTry env = .ok (some l)) : ∃ m, l = sortValues m := by
  unfold edgarTry at h
  repeat' split at h
  all_goals simp_all
  exact ⟨_, h.symm⟩

lemma polygonTry_ok_some {env : Env} {l : List FinancialRecord}
    (h : polygonTry env = .ok (some l)) : ∃ m, l = sortValues m := by
  unfold polygonTry at h
  repeat' split at h
  all_goals simp_all
  exact ⟨_, h.symm⟩

lemma yfTry_ok_some {env : Env} {l : List FinancialRecord}
    (h : yfTry env = .ok (some l)) : ∃ m, l = sortValues m := by
  unfold yfTry at h
  repeat' split at h
  all_goals simp_all
  exact ⟨_, h.symm⟩

lemma fmpAttempt_sortValues {env : Env} {l : List FinancialRecord}
    (h : fmpAttempt env = some l) : ∃ m, l = sortValues m := by
  unfold fmpAttempt at h
  split at h
  · simp at h
  · exact fmpTry_ok_some (pytry_eq_some h)

lemma sahmkAttempt_sortValues {env : Env} {l : List FinancialRecord}
    (h : sahmkAttempt env = some l) : ∃ m, l = sortValues m := by
  unfold sahmkAttempt at h
  split at h
  · exact sahmkTry_ok_some (pytry_eq_some h)
  · simp at h

lemma edgarAttempt_sortValues {env : Env} {l : List FinancialRecord}
    (h : edgarAttempt env = some l) : ∃ m, l = sortValues m := by
  unfold edgarAttempt at h
  split at h
  · exact edgarTry_ok_some (pytry_eq_some h)
  · simp at h

lemma polygonAttempt_sortValues {env : Env} {l : List FinancialRecord}
    (h : polygonAttempt env = some l) : ∃ m, l = sortValues m := by
  unfold polygonAttempt at h
  split at h
  · simp at h
  · exact polygonTry_ok_some (pytry_eq_some h)

lemma yfAttempt_sortValues {env : Env} {l : List FinancialRecord}
    (h : yfAttempt env = some l) : ∃ m, l = sortValues m := by
  unfold yfAttempt at h
  exact yfTry_ok_some (pytry_eq_some h)

/-- C1: for every ticker, credential set and combination of provider
behaviours — network errors, non-200 statuses, malformed bodies, missing
fields — `fetch_financials` hands its caller a plain (possibly empty)
list of records: the embedding is a total function on all of `Env`
(provider exceptions are `Except.error` values absorbed by `pytry`), and
its value is always the empty frame or the caught result of one of the
five provider attempts. -/
theorem fetch_financials_never_raises (env : Env) :
    fetch_financials env = [] ∨
      ∃ k : Nat, (attempts env)[k]? = some (some (fetch_financials env)) := by
  unfold fetch_financials fetchPair
  cases h1 : fmpAttempt env with
  | some df => exact Or.inr ⟨0, by simp [attempts, h1]⟩
  | none =>
  cases h2 : sahmkAttempt env with
  | some df => exact Or.inr ⟨1, by simp [attempts, h2]⟩
  | none =>
  cases h3 : edgarAttempt env with
  | some df => exact Or.inr ⟨2, by simp [attempts, h3]⟩
  | none =>
  cases h4 : polygonAttempt env with
  | some df => exact Or.inr ⟨3, by simp [attempts, h4]⟩
  | none =>
  cases h5 : yfAttempt env with
  | some df => exact Or.inr ⟨4, by simp [attempts, h5]⟩
  | none => exact Or.inl rfl

/-- C2: if every provider before position `k` in the priority order FMP,
SAHMK, EDGAR, Polygon, yfinance is skipped, raises or falls through empty
(`some none` in `attempts`) and provider `k` returns the non-empty
normalized result `r`, then `fetch_financials` returns exactly `r`. -/
theorem first_nonempty_provider_wins (env : Env) (k : Nat)
    (r : List FinancialRecord)
    (hk : (attempts env)[k]? = some (some r)) (hne : r ≠ [])
    (hprev : ∀ j, j < k → (attempts env)[j]? = some none) :
    fetch_financials env = r := by
  have h5 : k < 5 := by
    by_contra hge
    rw [List.getElem?_eq_none (by simp [attempts]; omega)] at hk
    exact Option.noConfusion hk
  unfold fetch_financials fetchPair
  interval_cases k
  · have h0 : fmpAttempt env = some r := by simpa [attempts] using hk
    rw [h0]
  · have h0 : fmpAttempt env = none := by
      simpa [attempts] using hprev 0 (by omega)
    have h1 : sahmkAttempt env = some r := by simpa [attempts] using hk
    rw [h0, h1]
  · have h0 : fmpAttempt env = none := by
      simpa [attempts] using hprev 0 (by omega)
    have h1 : sahmkAttempt env = none := by
      simpa [attempts] using hprev 1 (by omega)
    have h2 : edgarAttempt env = some r := by simpa [attempts] using hk
    rw [h0, h1, h2]
  · have h0 : fmpAttempt env = none := by
      simpa [attempts] using hprev 0 (by omega)
    have h1 : sahmkAttempt env = none := by
      simpa [attempts] using hprev 1 (by omega)
    have h2 : edgarAttempt env = none := by
      simpa [attempts] using hprev 2 (by omega)
    have h3 : polygonAttempt env = some r := by simpa [attempts] using hk
    rw [h0, h1, h2, h3]
  · have h0 : fmpAttempt env = none := by
      simpa [attempts] using hprev 0 (by omega)
    have h1 : sahmkAttempt env = none := by
      simpa [attempts] using hprev 1 (by omega)
    have h2 : edgarAttempt env = none := by
      simpa [attempts] using hprev 2 (by omega)
    have h3 : polygonAttempt env = none := by
      simpa [attempts] using hprev 3 (by omega)
    have h4 : yfAttempt env = some r := by simpa [attempts] using hk
    rw [h0, h1, h2, h3, h4]

/-- C2 witness: with only the Polygon key configured and a one-filing
Polygon answer, the first three providers yield nothing and the result is
exactly the normalized Polygon row. -/
theorem first_nonempty_provider_wins_witness :
    fetch_financials envC2 =
      [⟨some 2022, some 10, some 2, some 1, some 1⟩] :=
  first_nonempty_provider_wins envC2 3
    [⟨some 2022, some 10, some 2, some 1, some 1⟩]
    (by decide) (by decide)
    (fun j hj => by interval_cases j <;> decide)

/-- C7: when every provider is skipped, raises or falls through with no
data, `fetch_financials` returns the empty result rather than an error. -/
theorem all_providers_exhausted_empty (env : Env)
    (h : ∀ a ∈ attempts env, a = none) :
    fetch_financials env = [] := by
  have h0 : fmpAttempt env = none := h _ (by simp [attempts])
  have h1 : sahmkAttempt env = none := h _ (by simp [attempts])
  have h2 : edgarAttempt env = none := h _ (by simp [attempts])
  have h3 : polygonAttempt env = none := h _ (by simp [attempts])
  have h4 : yfAttempt env = none := h _ (by simp [attempts])
  unfold fetch_financials fetchPair
  rw [h0, h1, h2, h3, h4]

/-- C7 witness: a ticker with no credentials configured at all and an
empty yfinance fallback yields the empty sequence. -/
theorem all_providers_exhausted_empty_witness :
    fetch_financials env0 = [] :=
  all_providers_exhausted_empty env0 (by decide)

/-- C3 counterexample: two FMP statements dated in the same calendar year
give a non-empty result with two records sharing `Year = 2020`, so
returned results are not strictly ordered with pairwise-distinct years. -/
theorem result_years_not_pairwise_distinct :
    fetch_financials envC3 ≠ [] ∧
      ¬ (fetch_financials envC3).Pairwise
          (fun a b => a.Year ≠ b.Year) := by
  constructor
  · decide
  · intro hp
    have h2020 :
        fetch_financials envC3 =
          [⟨some 2020, some 50, some 10, some 5, some 1⟩,
           ⟨some 2020, some 60, some 12, some 6, some 2⟩] := by decide
    rw [h2020] at hp
    simp at hp

/-- C3 amended: every returned result is sorted by non-decreasing Year
(null years last); duplicate Year values are possible, since no provider
branch deduplicates and `sort_values` only orders the rows. -/
theorem result_sorted_by_year (env : Env) :
    List.Sorted recLe (fetch_financials env) := by
  unfold fetch_financials fetchPair
  cases h1 : fmpAttempt env with
  | some df =>
    obtain ⟨m, rfl⟩ := fmpAttempt_sortValues h1
    exact sorted_sortValues m
  | none =>
  cases h2 : sahmkAttempt env with
  | some df =>
    obtain ⟨m, rfl⟩ := sahmkAttempt_sortValues h2
    exact sorted_sortValues m
  | none =>
  cases h3 : edgarAttempt env with
  | some df =>
    obtain ⟨m, rfl⟩ := edgarAttempt_sortValues h3
    exact sorted_sortValues m
  | none =>
  cases h4 : polygonAttempt env with
  | some df =>
    obtain ⟨m, rfl⟩ := polygonAttempt_sortValues h4
    exact sorted_sortValues m
  | none =>
  cases h5 : yfAttempt env with
  | some df =>
    obtain ⟨m, rfl⟩ := yfAttempt_sortValues h5
    exact sorted_sortValues m
  | none => exact List.sorted_nil

/-- C4 counterexample: the FMP branch keeps a row whose financial fields
are all null — the returned result contains the all-null year-2020 row
instead of dropping it. -/
theorem fmp_keeps_all_null_financial_rows :
    fetch_financials envC4 =
      [⟨some 2019, some 100, some 20, some 15, some 2⟩,
       ⟨some 2020, none, none, none, none⟩] ∧
      (fetch_financials envC4).any
        (fun r => r.Revenue.isNone && r.OperatingIncome.isNone &&
          r.NetIncome.isNone && r.EPS.isNone) = true := by
  constructor
  · decide
  · decide

/-- C4 amended: after each provider call the provider fields are renamed
to the canonical set and date fields reduced to the calendar year (the
per-row maps `fmpRecord`, `sahmkRecord`, `polyRecord`, `yfRecord`), but
rows are not dropped for having all financial fields null: a successful
FMP result is a permutation of the normalization of every response row,
a successful SAHMK result likewise keeps every response row, and the
Polygon and yfinance branches drop a row only when every column, `Year`
included, is null. -/
theorem normalization_row_dropping (env env2 env3 env4 : Env)
    (resp : HttpResp FmpRow) (data : List FmpRow)
    (resp2 : HttpResp SahmkRow) (inc : List SahmkRow)
    (fs : List PolyRow) (income : List YfRow)
    (l l2 l3 l4 : List FinancialRecord)
    (h1 : env.fmpResp = .ok resp) (hs : resp.status = 200)
    (hb : resp.body = .ok data)
    (h2 : fmpTry env = .ok (some l))
    (h3 : env2.sahmkResp = .ok resp2) (hs2 : resp2.status = 200)
    (hb2 : resp2.body = .ok inc)
    (h4 : sahmkTry env2 = .ok (some l2))
    (h5 : env3.polygonResp = .ok fs)
    (h6 : polygonTry env3 = .ok (some l3))
    (h7 : env4.yfResp = .ok income)
    (h8 : yfTry env4 = .ok (some l4)) :
    l.Perm (data.map fmpRecord) ∧
      l2.Perm (inc.map (sahmkRecord (colPresent inc SahmkRow.eps))) ∧
      l3.Perm ((fs.map polyRecord).filter (fun r => !allNullRow r)) ∧
      l4.Perm ((income.map yfRecord).filter (fun r => !allNullRow r)) := by
  refine ⟨?_, ?_, ?_, ?_⟩
  · unfold fmpTry at h2
    rw [h1] at h2
    simp only [hs, if_true, hb] at h2
    split at h2
    · simp at h2
    · split at h2
      · have hl : sortValues (data.map fmpRecord) = l := by
          simpa using h2
        rw [← hl]
        exact List.perm_insertionSort recLe (data.map fmpRecord)
      · simp at h2
  · unfold sahmkTry at h4
    rw [h3] at h4
    simp only [hs2, if_true, hb2] at h4
    split at h4
    · split at h4
      · simp at h4
      · split at h4
        · have hl : sortValues
              (inc.map (sahmkRecord (colPresent inc SahmkRow.eps))) =
                l2 := by
            simpa using h4
          rw [← hl]
          exact List.perm_insertionSort recLe _
        · simp at h4
    · simp at h4
  · have h6e : (if ((fs.map polyRecord).filter
          (fun r => !allNullRow r)).isEmpty then Except.ok none
        else Except.ok (some (sortValues ((fs.map polyRecord).filter
          (fun r => !allNullRow r)))) :
            Except Unit (Option (List FinancialRecord))) =
        Except.ok (some l3) := by
      rw [← h6]
      unfold polygonTry
      rw [h5]
    split at h6e
    · simp at h6e
    · have hl : sortValues ((fs.map polyRecord).filter
          (fun r => !allNullRow r)) = l3 := by
        simpa using h6e
      rw [← hl]
      exact List.perm_insertionSort recLe _
  · have h8e : (if income.isEmpty then Except.ok none
        else Except.ok (some (sortValues ((income.map yfRecord).filter
          (fun r => !allNullRow r)))) :
            Except Unit (Option (List FinancialRecord))) =
        Except.ok (some l4) := by
      rw [← h8]
      unfold yfTry
      rw [h7]
    split at h8e
    · simp at h8e
    · have hl : sortValues ((income.map yfRecord).filter
          (fun r => !allNullRow r)) = l4 := by
        simpa using h8e
      rw [← hl]
      exact List.perm_insertionSort recLe _

/-- C4 amended witness: the FMP answer of `envC4` (one full row, one row
with all-null financials) is kept in full, the SAHMK answer of `envC4s`
(one full row, one row with all-null financials) is kept in full, the
Polygon answer of `envC4p` drops exactly its fully-absent row, and the
yfinance answer of `envC4y` keeps its row with all line items absent
because the Year from the date index is non-null. -/
theorem normalization_row_dropping_witness :
    ([⟨some 2019, some 100, some 20, some 15, some 2⟩,
      ⟨some 2020, none, none, none, none⟩] :
        List FinancialRecord).Perm (rowsC4.map fmpRecord) ∧
      ([⟨some 2021, some 1, some 2, some 3, some 4⟩,
        ⟨some 2022, none, none, none, none⟩] :
          List FinancialRecord).Perm
        (rowsC4s.map (sahmkRecord (colPresent rowsC4s SahmkRow.eps))) ∧
      ([⟨some 2022, some 10, some 2, some 1, none⟩] :
          List FinancialRecord).Perm
        ((rowsC4p.map polyRecord).filter (fun r => !allNullRow r)) ∧
      ([⟨some 2020, none, none, none, none⟩,
        ⟨some 2021, some 5, some 6, some 7, some 8⟩] :
          List FinancialRecord).Perm
        ((rowsC4y.map yfRecord).filter (fun r => !allNullRow r)) :=
  normalization_row_dropping envC4 envC4s envC4p envC4y
    ⟨200, .ok rowsC4⟩ rowsC4 ⟨200, .ok rowsC4s⟩ rowsC4s rowsC4p rowsC4y
    [⟨some 2019, some 100, some 20, some 15, some 2⟩,
     ⟨some 2020, none, none, none, none⟩]
    [⟨some 2021, some 1, some 2, some 3, some 4⟩,
     ⟨some 2022, none, none, none, none⟩]
    [⟨some 2022, some 10, some 2, some 1, none⟩]
    [⟨some 2020, none, none, none, none⟩,
     ⟨some 2021, some 5, some 6, some 7, some 8⟩]
    rfl rfl rfl rfl rfl rfl rfl rfl rfl rfl rfl rfl

/-- C5: a ticker that does not end in `.SR` never issues a SAHMK request,
whatever keys are present: `PCall.sahmk` is absent from the trace. -/
theorem sahmk_gated_on_sr_suffix (env : Env)
    (h : pyEndsWith env.ticker ".SR" = false) :
    PCall.sahmk ∉ fetchTrace env := by
  have hg : sahmkGate env = false := by simp [sahmkGate, h]
  have hsc : sahmkCalls env = [] := by simp [sahmkCalls, hg]
  have hf : PCall.sahmk ∉ fmpCalls env := by
    unfold fmpCalls
    split <;> simp
  have he : PCall.sahmk ∉ edgarCalls env := by
    unfold edgarCalls
    split <;> simp
  have hp : PCall.sahmk ∉ polygonCalls env := by
    unfold polygonCalls
    split <;> simp
  unfold fetchTrace fetchPair
  cases fmpAttempt env <;> cases sahmkAttempt env <;>
    cases edgarAttempt env <;> cases polygonAttempt env <;>
    cases yfAttempt env <;>
    simp_all [List.mem_append, hsc]

/-- C5 witness: ticker `AAPL` issues no SAHMK request. -/
theorem sahmk_gated_on_sr_suffix_witness :
    PCall.sahmk ∉ fetchTrace env0 :=
  sahmk_gated_on_sr_suffix env0 (by decide)

/-- C6: when FMP yields nothing, the SAHMK branch wins and its response
rows carry no `eps` key, the returned result is the SAHMK normalization
in which the EPS of every record is synthesized as Net Income / 1e9. -/
theorem sahmk_eps_synthesized (env : Env) (resp : HttpResp SahmkRow)
    (inc : List SahmkRow)
    (hfmp : fmpAttempt env = none)
    (hgate : sahmkGate env = true)
    (hresp : env.sahmkResp = .ok resp) (hst : resp.status = 200)
    (hbody : resp.body = .ok inc)
    (hnoEps : colPresent inc SahmkRow.eps = false)
    (hrd : colPresent inc SahmkRow.report_date = true)
    (hrev : colPresent inc SahmkRow.total_revenue = true)
    (hoi : colPresent inc SahmkRow.operating_income = true)
    (hni : colPresent inc SahmkRow.net_income = true) :
    fetch_financials env = sortValues (inc.map (sahmkRecord false)) ∧
      ∀ r ∈ fetch_financials env,
        r.EPS = r.NetIncome.map (fun x => x / 1000000000) := by
  have htry : sahmkTry env =
      .ok (some (sortValues (inc.map (sahmkRecord false)))) := by
    unfold sahmkTry
    rw [hresp]
    simp [hst, hbody, hrd, hnoEps, hrev, hoi, hni]
  have hmain : fetch_financials env =
      sortValues (inc.map (sahmkRecord false)) := by
    unfold fetch_financials fetchPair
    rw [hfmp]
    have hatt : sahmkAttempt env =
        some (sortValues (inc.map (sahmkRecord false))) := by
      unfold sahmkAttempt
      rw [hgate, htry]
      rfl
    rw [hatt]
  refine ⟨hmain, fun r hr => ?_⟩
  rw [hmain] at hr
  have hr2 : r ∈ inc.map (sahmkRecord false) :=
    (List.mem_insertionSort recLe).mp hr
  obtain ⟨row, _, rfl⟩ := List.mem_map.mp hr2
  rfl

/-- C6 witness: ticker `1120.SR`, SAHMK key present, one row with no
`eps` field and Net Income 3,000,000,000 yields a synthesized EPS of 3. -/
theorem sahmk_eps_synthesized_witness :
    fetch_financials envC6 =
      [⟨some 2023, some 5000000000, some 4000000000,
        some 3000000000, some 3⟩] := by
  have h := sahmk_eps_synthesized envC6 ⟨200, .ok
    [⟨some (some ⟨2023, 12, 31⟩), some (some 5000000000),
      some (some 4000000000), some (some 3000000000), none⟩]⟩
    [⟨some (some ⟨2023, 12, 31⟩), some (some 5000000000),
      some (some 4000000000), some (some 3000000000), none⟩]
    rfl rfl rfl rfl rfl rfl rfl rfl rfl rfl
  rw [h.1]
  simp only [sortValues, List.insertionSort, List.map, List.orderedInsert,
    sahmkRecord, cell]
  norm_num

/-- C8: two successive calls with an identical (ticker, credential set)
within the two-hour freshness window: the second call returns the result
computed by the first, issues no network request to any provider, and
leaves the cache unchanged.  The cache itself is modelled from the spec,
since `st.cache_data` is framework code outside this repository. -/
theorem cached_fetch_within_window (env env2 : Env) (t0 t1 : Int)
    (hk : cacheKey env2 = cacheKey env) (h0 : t0 ≤ t1)
    (h1 : t1 - t0 < cacheTTL) :
    cachedFetch env2 t1 (cachedFetch env t0 []).2 =
      (((cachedFetch env t0 []).1.1, []), (cachedFetch env t0 []).2) := by
  have hfirst : cachedFetch env t0 [] =
      (fetchPair env, [⟨cacheKey env, (fetchPair env).1, t0⟩]) := rfl
  rw [hfirst]
  unfold cachedFetch cacheLookup
  simp [List.find?, hk, h1]

/-- C8 witness: the same no-credential call twice, 100 seconds apart. -/
theorem cached_fetch_within_window_witness :
    cachedFetch env0 100 (cachedFetch env0 0 []).2 =
      (((cachedFetch env0 0 []).1.1, []), (cachedFetch env0 0 []).2) :=
  cached_fetch_within_window env0 env0 0 100 rfl (by decide) (by decide)

/-- C9: `get_ticker` is a total function of the query and the search
outcome, and whenever the symbol search raises or returns no quotes it
falls back to the uppercased original query. -/
theorem get_ticker_fallback (env : TickEnv)
    (h : env.searchResp = .error () ∨ env.searchResp = .ok []) :
    get_ticker env = pyUpper env.query := by
  unfold get_ticker
  rcases h with h | h <;> rw [h] <;> split <;> rfl

/-- C9 witness: the free-text query `apple inc` with a raising symbol
search resolves to `APPLE INC`. -/
theorem get_ticker_fallback_witness :
    get_ticker tickEnvW = "APPLE INC" := by
  rw [get_ticker_fallback tickEnvW (Or.inl rfl)]
  decide

/-- C10 counterexample: FMP answers one complete row and one row lacking
only the `eps` key; with yfinance data available, the FMP result is
nevertheless returned in full — the partial row appears with a null EPS
instead of the whole FMP result being discarded. -/
theorem fmp_partial_rows_returned :
    fetch_financials envC10 =
      [⟨some 2019, some 100, some 20, some 15, some 2⟩,
       ⟨some 2020, some 7, some 8, some 9, none⟩] ∧
      (fetch_financials envC10).any (fun r => r.EPS.isNone) = true := by
  constructor
  · decide
  · decide

/-- C10 amended: a 200-status, non-empty FMP answer is discarded (and the
call behaves exactly as if no FMP key were configured) precisely when one
of the five required fields is absent from every row, i.e. the column
itself is missing; when every column is present, the FMP branch returns
all rows, with null cells where an individual row lacks a field. -/
theorem fmp_discard_on_missing_column (env : Env) (resp : HttpResp FmpRow)
    (data : List FmpRow)
    (h1 : env.fmpResp = .ok resp) (hs : resp.status = 200)
    (hb : resp.body = .ok data) (hne : data ≠ []) :
    (fmpCols data = false →
      fetch_financials env = fetch_financials { env with fmp_key := "" }) ∧
    (fmpCols data = true →
      fmpTry env = .ok (some (sortValues (data.map fmpRecord)))) := by
  have hemp : data.isEmpty = false := by
    cases data
    · exact absurd rfl hne
    · rfl
  constructor
  · intro hcols
    have htry : fmpTry env = .error () := by
      unfold fmpTry
      rw [h1]
      simp [hs, hb, hemp, hcols]
    have hatt : fmpAttempt env = none := by
      unfold fmpAttempt
      split
      · rfl
      · rw [htry]
        rfl
    have hatt2 : fmpAttempt { env with fmp_key := "" } = none := rfl
    have e2 : sahmkAttempt { env with fmp_key := "" } =
        sahmkAttempt env := rfl
    have e3 : edgarAttempt { env with fmp_key := "" } =
        edgarAttempt env := rfl
    have e4 : polygonAttempt { env with fmp_key := "" } =
        polygonAttempt env := rfl
    have e5 : yfAttempt { env with fmp_key := "" } = yfAttempt env := rfl
    unfold fetch_financials fetchPair
    rw [hatt, hatt2, e2, e3, e4, e5]
    cases sahmkAttempt env <;> cases edgarAttempt env <;>
      cases polygonAttempt env <;> cases yfAttempt env <;> rfl
  · intro hcols
    unfold fmpTry
    rw [h1]
    simp [hs, hb, hemp, hcols]

/-- C10 amended witness: an FMP answer whose rows all lack the `eps` key
is discarded whole, so the call returns what it would return with no FMP
key configured. -/
theorem fmp_discard_on_missing_column_witness :
    fetch_financials envC10b =
      fetch_financials { envC10b with fmp_key := "" } :=
  (fmp_discard_on_missing_column envC10b ⟨200, .ok rowsC10b⟩ rowsC10b
    rfl rfl rfl (by decide)).1 rfl
